import Mathlib

/-!
Shallow embedding of the `unpaid_student_extractor` repository
(`fee_extractor.py` and `initial_fee_defaulters.py`), together with
theorems settling the claims about its behaviour.

Modelling conventions (all stated next to the relevant definition):
* Pandas DataFrames become Lean lists of structures, one structure per row.
* Calendar dates (`datetime.date` / `pd.Timestamp`) are triples
  year/month/day compared lexicographically; `self.today` is an explicit
  parameter `today`.
* Currency amounts (`Balance`, `Opening Balance`, `Amount Applied to
  Invoice`) are modelled as integers: the pipeline only sums and compares
  them, and no claim depends on fractional values.
* A nullable CSV cell (pandas `NaN`/`NaT`) is an `Option`; `pd.to_datetime`
  / `pd.to_numeric` with `errors='coerce'` yields `none` for unparseable
  cells.
-/

namespace UnpaidStudentExtractor

/-- A calendar date (`datetime.date`); comparison is lexicographic on
(year, month, day), as for Python `date` objects. -/
structure Date where
  year : Nat
  month : Nat
  day : Nat
deriving DecidableEq

/-- `a <= b` on dates (Python `date.__le__`). -/
def Date.ble (a b : Date) : Bool :=
  a.year < b.year ||
    (a.year == b.year &&
      (a.month < b.month || (a.month == b.month && a.day ≤ b.day)))

/-- `a < b` on dates (Python `date.__lt__`). -/
def Date.blt (a b : Date) : Bool :=
  a.year < b.year ||
    (a.year == b.year &&
      (a.month < b.month || (a.month == b.month && a.day < b.day)))

/-- One row of `Invoice.csv`.  `sect` is the `Section` column (`none` = NaN);
`itemName` is `Item Name` (`none` = NaN); `dueDate` is the `Due Date` column
after `pd.to_datetime(..., errors='coerce')` (`none` = missing or
unparseable).  The `Grade` column is modelled as always present: no claim
concerns a null grade. -/
structure Invoice where
  customerId : String
  school : String
  grade : String
  sect : Option String
  itemName : Option String
  invoiceStatus : String
  balance : Int
  dueDate : Option Date
deriving DecidableEq

/-- One row of `Contacts.csv`.  `openingBalance` is the `Opening Balance`
column after `pd.to_numeric(..., errors='coerce')`. -/
structure Contact where
  contactId : String
  firstName : Option String
  lastName : Option String
  enrollmentCode : Option String
  school : String
  grade : String
  sect : Option String
  openingBalance : Option Int
deriving DecidableEq

/-- One row of `Customer_Payment.csv`.  `amount` is `Amount Applied to
Invoice` after `pd.to_numeric(..., errors='coerce')`. -/
structure Payment where
  customerId : String
  invoiceNumber : String
  amount : Option Int
  customerName : String
deriving DecidableEq

/-- Bool-valued check that `pat` occurs as a contiguous sublist of `l`
(structural recursion, so it evaluates in the kernel). -/
def listHasInfix [DecidableEq α] (pat : List α) : List α → Bool
  | [] => pat.isEmpty
  | a :: rest => pat.isPrefixOf (a :: rest) || listHasInfix pat rest

/-- Python's substring test `pat in s` (for the non-empty fixed patterns
used by the classifier). -/
def strContains (s pat : String) : Bool :=
  listHasInfix pat.data s.data

/-- Python's `s[:3]` for the pure-ASCII month names in use. -/
def strTake3 (s : String) : String :=
  String.mk (s.data.take 3)

/-- Python's `str.strip()` (leading and trailing whitespace removed). -/
def strTrim (s : String) : String :=
  String.mk (((s.data.dropWhile Char.isWhitespace).reverse.dropWhile
    Char.isWhitespace).reverse)

/-- `self.excel_global_fees`: the ordered substring → fee-type mapping for
Excel Global School (Python dicts preserve insertion order). -/
def excelGlobalFees : List (String × String) :=
  [("Initial Academic Fee", "Initial Fee"),
   ("Term I Fee (June)", "Term I"),
   ("Term II Fee (Sept)", "Term II"),
   ("Term III Fee (Jan)", "Term III")]

/-- `self.excel_central_months`. -/
def excelCentralMonths : List String :=
  ["June", "July", "August", "September", "October",
   "November", "December", "January", "February", "March"]

/-- The `month_mapping` dict of `get_due_fees_columns` (month number, year).
The catch-all branch is unreachable: the function is only applied to the
ten fixed month names. -/
def monthMapping : String → Nat × Nat
  | "June" => (6, 2025)
  | "July" => (7, 2025)
  | "August" => (8, 2025)
  | "September" => (9, 2025)
  | "October" => (10, 2025)
  | "November" => (11, 2025)
  | "December" => (12, 2025)
  | "January" => (1, 2026)
  | "February" => (2, 2026)
  | "March" => (3, 2026)
  | _ => (0, 0)

/-- The `for month_name in self.excel_central_months` loop of
`get_due_fees_columns`: include `f"{month_name[:3]}-{year}"` while
`today >= date(year, month_num, 1)`, `break` at the first month not
reached. -/
def monthlyWalk (today : Date) : List String → List String
  | [] => []
  | m :: rest =>
    let p := monthMapping m
    if Date.ble ⟨p.2, p.1, 1⟩ today then
      (strTake3 m ++ "-" ++ toString p.2) :: monthlyWalk today rest
    else []

/-- `FeeDefaulterExtractor.get_due_fees_columns`.  `overdueFeeTypes` models
the Python set (or `None`): an empty list models both `None` and the empty
set, which are equally falsy in the guard
`overdue_fee_types and 'Term I' in overdue_fee_types`. -/
def get_due_fees_columns (today : Date) (school : String)
    (overdueFeeTypes : List String) : List String :=
  let columns := ["Initial Fee"]
  if school == "Excel Global School" then
    let columns := if Date.ble ⟨2025, 6, 1⟩ today ||
        (!overdueFeeTypes.isEmpty && overdueFeeTypes.contains "Term I") then
      columns ++ ["Term I"] else columns
    let columns := if Date.ble ⟨2025, 9, 1⟩ today ||
        (!overdueFeeTypes.isEmpty && overdueFeeTypes.contains "Term II") then
      columns ++ ["Term II"] else columns
    let columns := if Date.ble ⟨2026, 1, 1⟩ today ||
        (!overdueFeeTypes.isEmpty && overdueFeeTypes.contains "Term III") then
      columns ++ ["Term III"] else columns
    columns
  else if school == "Excel Central School" then
    columns ++ monthlyWalk today excelCentralMonths
  else columns

/-- The inner scan of `extract_fee_type` for Excel Central School: first
month whose `f"{month} Monthly Fee"` occurs in the item name. -/
def centralMonthScan (itemName : String) : List String → Option String
  | [] => none
  | m :: rest =>
    if strContains itemName (m ++ " Monthly Fee") then
      some (strTake3 m ++ "-" ++
        toString (if m == "January" || m == "February" || m == "March"
          then (2026 : Nat) else 2025))
    else centralMonthScan itemName rest

/-- The substring scan of `extract_fee_type` for Excel Global School:
first dict entry whose key occurs in the item name. -/
def globalFeeScan (itemName : String) : List (String × String) → Option String
  | [] => none
  | kv :: rest =>
    if strContains itemName kv.1 then some kv.2 else globalFeeScan itemName rest

/-- `FeeDefaulterExtractor.extract_fee_type`: item name → fee-period key.
`none` input models a NaN `Item Name` (`pd.isna`). -/
def extract_fee_type (itemName : Option String) (school : String) :
    Option String :=
  match itemName with
  | none => none
  | some item =>
    if school == "Excel Global School" then
      globalFeeScan item excelGlobalFees
    else if school == "Excel Central School" then
      if strContains item "Initial Academic Fee" then some "Initial Fee"
      else centralMonthScan item excelCentralMonths
    else none

/-- The row filter of `FeeDefaulterExtractor.process_invoices`: keep rows
with `Invoice Status == 'Overdue'`, or `'PartiallyPaid'` with a due date
strictly before today.  A missing/unparseable due date (`NaT`) compares
false under `<`, so such PartiallyPaid rows are dropped. -/
def isDefaulterInvoice (today : Date) (inv : Invoice) : Bool :=
  inv.invoiceStatus == "Overdue" ||
    (inv.invoiceStatus == "PartiallyPaid" &&
      (match inv.dueDate with
       | some d => Date.blt d today
       | none => false))

/-- First-occurrence deduplication by a key, with an accumulator of keys
already seen.  With `seen = []` and `key = id` this is the distinct group
keys of a pandas `groupby` in order of first appearance; with a record key
it is `drop_duplicates(subset=..., keep='first')`. -/
def dedupByAux [DecidableEq β] (key : α → β) (seen : List β) :
    List α → List α
  | [] => []
  | x :: xs =>
    if key x ∈ seen then dedupByAux key seen xs
    else x :: dedupByAux key (key x :: seen) xs

/-- The left join of `process_invoices` onto
`contacts[['Contact ID','First Name','Last Name','CF.Enrollment Code']]`,
modelled as a first-match lookup (`Contact ID` is the contacts table's
key, one row per student), followed by
`(first.fillna('') + ' ' + last.fillna('')).str.strip()`.  A join miss
leaves both names NaN, hence `''`. -/
def studentNameOf (contacts : List Contact) (cid : String) : String :=
  let c := contacts.find? (fun c => c.contactId == cid)
  strTrim (((c.bind (·.firstName)).getD "") ++ " " ++
    ((c.bind (·.lastName)).getD ""))

/-- `defaulter_invoices['Enrollment No'] = CF.Enrollment Code.fillna('')`,
via the same first-match left join. -/
def enrollmentNoOf (contacts : List Contact) (cid : String) : String :=
  ((contacts.find? (fun c => c.contactId == cid)).bind
    (·.enrollmentCode)).getD ""

/-- `process_invoices` filtered to one school, as at the top of
`create_student_summary` (`defaulter_invoices[defaulter_invoices['School']
== school]`).  The name-attaching merge keeps rows 1:1 (see
`studentNameOf`), so the rows themselves are just the filtered invoices. -/
def schoolDefaulterInvoices (today : Date) (invoices : List Invoice)
    (school : String) : List Invoice :=
  (invoices.filter (fun i => isDefaulterInvoice today i)).filter
    (fun i => i.school == school)

/-- `school_invoices['Fee Type'].dropna()`: the fee types of the school's
defaulter-filtered rows.  The source applies `.unique()`, but the result
is only used for membership tests, so duplicates are immaterial. -/
def overdueFeeTypesOf (school : String) (sinvs : List Invoice) :
    List String :=
  sinvs.filterMap (fun i => extract_fee_type i.itemName school)

/-- The per-column body of the `for col in due_columns` loop of
`create_student_summary`: `group` is the student's (customer, grade,
section) group of defaulter-filtered rows, `studentAll` is
`student_all_invoices` (all of the student's invoices for the school). -/
def feeValue (school : String) (group studentAll : List Invoice)
    (col : String) : Int :=
  let overdueAmount :=
    ((group.filter (fun i => extract_fee_type i.itemName school == some col)).map
      (·.balance)).sum
  let allFee := studentAll.filter
    (fun i => extract_fee_type i.itemName school == some col)
  if 0 < allFee.length then
    if 0 < overdueAmount then overdueAmount
    else if allFee.any
        (fun i => i.invoiceStatus == "Closed" || i.invoiceStatus == "Paid")
        || decide (((allFee.map (·.balance)).sum) = 0) then
      (-1)
    else 0
  else 0

/-- One StudentFeeSummary row (`student_data` in the source). `values`
holds the due-column cells in due-column order. -/
structure SummaryRow where
  customerId : String
  studentName : String
  enrollmentNo : String
  grade : String
  sect : String
  values : List (String × Int)
  totalOutstanding : Int
deriving DecidableEq

/-- The `group` of one `groupby` iteration of `create_student_summary`:
the school's defaulter-filtered rows with the given (customer, grade,
section) key. -/
def groupInvoices (sinvs : List Invoice) (k : String × String × String) :
    List Invoice :=
  sinvs.filter (fun i =>
    i.customerId == k.1 && i.grade == k.2.1 && i.sect == some k.2.2)

/-- `student_all_invoices`: the rows of `all_invoices_for_defaulters` for
one customer. -/
def studentInvoices (allInvs : List Invoice) (cid : String) : List Invoice :=
  allInvs.filter (fun i => i.customerId == cid)

/-- The body of the `for (customer_id, grade, section), group in
school_invoices.groupby(...)` loop of `create_student_summary`.  The
`section if pd.notna(section) else 'General'` guard of the source is dead
code — groupby's default `dropna=True` never yields a null key — so `k.2.2`
is the (present) section.  `Total Outstanding` is
`sum(max(0, student_data[col]) for col in due_columns)`. -/
def mkSummaryRow (contacts : List Contact) (school : String)
    (dueColumns : List String) (sinvs allInvs : List Invoice)
    (k : String × String × String) : SummaryRow :=
  let group := groupInvoices sinvs k
  let studentAll := studentInvoices allInvs k.1
  let vals := dueColumns.map
    (fun col => (col, feeValue school group studentAll col))
  { customerId := k.1
    studentName := studentNameOf contacts k.1
    enrollmentNo := enrollmentNoOf contacts k.1
    grade := k.2.1
    sect := k.2.2
    values := vals
    totalOutstanding := (vals.map (fun p => max 0 p.2)).sum }

/-- `FeeDefaulterExtractor.create_student_summary`.  Grouping is by
`(Customer ID, Grade, Section)`; pandas `groupby` silently drops rows in
which any grouping key is NaN (`dropna=True` default), modelled by the
`filterMap` over `i.sect`: a row with a null `Section` contributes no
group key.  Group keys are kept in order of first appearance (pandas
sorts them; no claim concerns row order in the output). -/
def create_student_summary (today : Date) (contacts : List Contact)
    (invoices : List Invoice) (school : String) : List SummaryRow :=
  let sinvs := schoolDefaulterInvoices today invoices school
  if sinvs.length = 0 then []
  else
    let dueColumns := get_due_fees_columns today school
      (overdueFeeTypesOf school sinvs)
    let defaulterIds := sinvs.map (·.customerId)
    let allInvs := invoices.filter (fun i =>
      defaulterIds.contains i.customerId && i.school == school)
    let keys := dedupByAux id []
      (sinvs.filterMap (fun i =>
        i.sect.map (fun s => (i.customerId, i.grade, s))))
    keys.map (mkSummaryRow contacts school dueColumns sinvs allInvs)

/-- Named form of the `due_columns` local of `create_student_summary`. -/
def aggDueColumns (today : Date) (invoices : List Invoice)
    (school : String) : List String :=
  get_due_fees_columns today school
    (overdueFeeTypesOf school (schoolDefaulterInvoices today invoices school))

/-- Named form of the `all_invoices_for_defaulters` local of
`create_student_summary`. -/
def aggAllInvs (today : Date) (invoices : List Invoice)
    (school : String) : List Invoice :=
  invoices.filter (fun i =>
    ((schoolDefaulterInvoices today invoices school).map
      (·.customerId)).contains i.customerId && i.school == school)

/-- Named form of the `groupby` key list of `create_student_summary`. -/
def aggGroupKeys (today : Date) (invoices : List Invoice)
    (school : String) : List (String × String × String) :=
  dedupByAux id []
    ((schoolDefaulterInvoices today invoices school).filterMap (fun i =>
      i.sect.map (fun s => (i.customerId, i.grade, s))))

/-- The sum of a customer's opening-balance payments: rows of
`Customer_Payment.csv` whose `Invoice Number` is the sentinel
`'Customer opening balance'`, summed per `CustomerID` (NaN amounts are
skipped by pandas `sum`, hence the `filterMap`).  The source materialises
this as a groupby table and left-joins it onto the contacts with
`fillna(0)` for customers absent from the table; a missing group and an
empty sum are both `0`, so the composite is this direct sum. -/
def openingBalancePaidSum (payments : List Payment) (cid : String) : Int :=
  (((payments.filter (fun p =>
    p.invoiceNumber == "Customer opening balance" && p.customerId == cid)).filterMap
      (·.amount))).sum

/-- One output row of `identify_opening_balance_defaulters`.
`studentName` is `First Name + ' ' + Last Name` without `fillna`, so a NaN
name component propagates (modelled as `none`). -/
structure OBDefaulter where
  contactId : String
  studentName : Option String
  school : String
  grade : String
  sect : String
  openingBalance : Int
  totalPaid : Int
  remaining : Int
  status : String
deriving DecidableEq

/-- The `Student Name` column of `contacts_balance_df`: pandas string
concatenation propagates NaN. -/
def obStudentName (c : Contact) : Option String :=
  match c.firstName, c.lastName with
  | some f, some l => some (f ++ " " ++ l)
  | _, _ => none

/-- The output row built from one contact by
`identify_opening_balance_defaulters` (after the merge and `fillna(0)`;
`Section.fillna('-')` and the status tag are applied to every output
row). -/
def mkOBDefaulter (payments : List Payment) (c : Contact) : OBDefaulter :=
  let ob := c.openingBalance.getD 0
  let paid := openingBalancePaidSum payments c.contactId
  { contactId := c.contactId
    studentName := obStudentName c
    school := c.school
    grade := c.grade
    sect := c.sect.getD "-"
    openingBalance := ob
    totalPaid := paid
    remaining := ob - paid
    status := "Opening Balance Not Fully Paid" }

/-- Whether a contact passes the `Opening Balance > 0` filter of
`load_contacts_with_opening_balance` (NaN compares false). -/
def hasPositiveOpeningBalance (c : Contact) : Bool :=
  match c.openingBalance with
  | some ob => 0 < ob
  | none => false

/-- `InitialFeeDefaulterExtractor.identify_opening_balance_defaulters`:
contacts with positive opening balance, joined to their summed
opening-balance payments, kept when the remaining balance is positive. -/
def identify_opening_balance_defaulters (contacts : List Contact)
    (payments : List Payment) : List OBDefaulter :=
  ((contacts.filter hasPositiveOpeningBalance).map
    (mkOBDefaulter payments)).filter (fun r => 0 < r.remaining)

/-- One row of the combined initial-fee / opening-balance defaulter
report (`defaulter_data` / `formatted_data` in the source). -/
structure DefaulterRecord where
  customerId : String
  studentName : Option String
  school : String
  grade : String
  sect : String
  status : String
  openingBalance : Int
  totalPaid : Int
  remaining : Int
deriving DecidableEq

/-- Lines 241–253 of `initial_fee_defaulters.py`: reshaping an
opening-balance defaulter row into the combined-report record (pure field
renaming). -/
def obToRecord (r : OBDefaulter) : DefaulterRecord :=
  { customerId := r.contactId
    studentName := r.studentName
    school := r.school
    grade := r.grade
    sect := r.sect
    status := r.status
    openingBalance := r.openingBalance
    totalPaid := r.totalPaid
    remaining := r.remaining }

/-- The per-school body of `extract_initial_fee_defaulters` (lines
165–233): defaulter-filtered invoices of the school, restricted to fee
type `'Initial Fee'`, `Section.fillna('-')` applied **before** grouping
(so null sections survive here, unlike in `create_student_summary`);
one record per (customer, grade, section) group whose student has no
Closed/Paid invoice of fee type `'Initial Fee'` for the school.  The
`len(initial_fee_invoices) > 0` guard is kept as in the source. -/
def initialFeeRecordsForSchool (today : Date) (contacts : List Contact)
    (invoices : List Invoice) (school : String) : List DefaulterRecord :=
  let sinvs := schoolDefaulterInvoices today invoices school
  if sinvs.length = 0 then []
  else
    let initialFeeDefaulters := sinvs.filter (fun i =>
      extract_fee_type i.itemName school == some "Initial Fee")
    if initialFeeDefaulters.length = 0 then []
    else
      let defaulterIds := initialFeeDefaulters.map (·.customerId)
      let allInvs := invoices.filter (fun i =>
        defaulterIds.contains i.customerId && i.school == school)
      let keys := dedupByAux id []
        (initialFeeDefaulters.map (fun i =>
          (i.customerId, i.grade, i.sect.getD "-")))
      keys.filterMap (fun k =>
        let studentAll := allInvs.filter (fun i => i.customerId == k.1)
        let initialFeeInvs := studentAll.filter (fun i =>
          extract_fee_type i.itemName school == some "Initial Fee")
        if 0 < initialFeeInvs.length &&
            !(initialFeeInvs.any (fun i =>
              i.invoiceStatus == "Closed" || i.invoiceStatus == "Paid")) then
          some { customerId := k.1
                 studentName := some (studentNameOf contacts k.1)
                 school := school
                 grade := k.2.1
                 sect := k.2.2
                 status := "Initial Fee Not Paid"
                 openingBalance := 0
                 totalPaid := 0
                 remaining := 0 }
        else none)

/-- The initial-fee portion of `all_defaulters`: the two schools are
processed in this fixed order. -/
def initialFeeRecords (today : Date) (contacts : List Contact)
    (invoices : List Invoice) : List DefaulterRecord :=
  initialFeeRecordsForSchool today contacts invoices "Excel Global School" ++
    initialFeeRecordsForSchool today contacts invoices "Excel Central School"

/-- `InitialFeeDefaulterExtractor.extract_initial_fee_defaulters`:
initial-fee records (both schools) followed by the opening-balance
records, then `drop_duplicates(subset=['Customer ID'], keep='first')`.
The trailing `sort_values` only permutes rows (with pandas's non-stable
default sort) and is not modelled: no claim concerns row order. -/
def extract_initial_fee_defaulters (today : Date) (contacts : List Contact)
    (invoices : List Invoice) (payments : List Payment) :
    List DefaulterRecord :=
  dedupByAux (fun r => r.customerId) []
    (initialFeeRecords today contacts invoices ++
      (identify_opening_balance_defaulters contacts payments).map obToRecord)

/-- Named form of the `initial_fee_defaulters` local of
`extract_initial_fee_defaulters`. -/
def ifdInvoices (today : Date) (invoices : List Invoice)
    (school : String) : List Invoice :=
  (schoolDefaulterInvoices today invoices school).filter (fun i =>
    extract_fee_type i.itemName school == some "Initial Fee")

/-- Named form of the `all_invoices_for_defaulters` local of
`extract_initial_fee_defaulters`. -/
def ifdAllInvs (today : Date) (invoices : List Invoice)
    (school : String) : List Invoice :=
  invoices.filter (fun i =>
    ((ifdInvoices today invoices school).map (·.customerId)).contains
      i.customerId && i.school == school)

/-- Named form of the group-key list of
`extract_initial_fee_defaulters`. -/
def ifdKeys (today : Date) (invoices : List Invoice)
    (school : String) : List (String × String × String) :=
  dedupByAux id []
    ((ifdInvoices today invoices school).map (fun i =>
      (i.customerId, i.grade, i.sect.getD "-")))

/-- Named form of the `initial_fee_invoices` local of
`extract_initial_fee_defaulters` for one customer. -/
def ifdStudentIFInvs (today : Date) (invoices : List Invoice)
    (school cid : String) : List Invoice :=
  ((ifdAllInvs today invoices school).filter
    (fun i => i.customerId == cid)).filter (fun i =>
      extract_fee_type i.itemName school == some "Initial Fee")

/-- Named form of the `defaulter_data` record literal of
`extract_initial_fee_defaulters`. -/
def mkInitialFeeRecord (contacts : List Contact) (school : String)
    (k : String × String × String) : DefaulterRecord :=
  { customerId := k.1
    studentName := some (studentNameOf contacts k.1)
    school := school
    grade := k.2.1
    sect := k.2.2
    status := "Initial Fee Not Paid"
    openingBalance := 0
    totalPaid := 0
    remaining := 0 }

/-! ## Claim-side definitions

The following definitions restate, in the claims' own words, the values the
claims say the code computes; the theorems below compare them with the
source-translated definitions above. -/

/-- Claim side (C6): the ten academic-month fee-period keys of the monthly
school with their first days, in calendar order. -/
def centralMonthKeys : List (String × Date) :=
  [("Jun-2025", ⟨2025, 6, 1⟩), ("Jul-2025", ⟨2025, 7, 1⟩),
   ("Aug-2025", ⟨2025, 8, 1⟩), ("Sep-2025", ⟨2025, 9, 1⟩),
   ("Oct-2025", ⟨2025, 10, 1⟩), ("Nov-2025", ⟨2025, 11, 1⟩),
   ("Dec-2025", ⟨2025, 12, 1⟩), ("Jan-2026", ⟨2026, 1, 1⟩),
   ("Feb-2026", ⟨2026, 2, 1⟩), ("Mar-2026", ⟨2026, 3, 1⟩)]

/-- Claim side (C1): the summed Balance of the defaulter-filtered subset of
the group's invoices (school, customer, grade, section) for one period
key. -/
def aggDefaulterSubsetSum (today : Date) (invoices : List Invoice)
    (school cid grade sec col : String) : Int :=
  ((invoices.filter (fun i =>
    isDefaulterInvoice today i && i.school == school &&
      i.customerId == cid && i.grade == grade && i.sect == some sec &&
      extract_fee_type i.itemName school == some col)).map (·.balance)).sum

/-- Claim side (C1): all of the student's invoices for the school and
period key (regardless of status or due date). -/
def aggAllPeriodInvoices (invoices : List Invoice)
    (school cid col : String) : List Invoice :=
  invoices.filter (fun i =>
    i.school == school && i.customerId == cid &&
      extract_fee_type i.itemName school == some col)

/-- Claim side (C1): the tri-state due-column value as the claim words it:
positive defaulter-subset sum if there is one; else the paid sentinel `-1`
when some invoice for the period exists and either one of them is
Closed/Paid or their balances sum to zero; else `0`. -/
def aggValueSpec (today : Date) (invoices : List Invoice)
    (school cid grade sec col : String) : Int :=
  let subsetSum := aggDefaulterSubsetSum today invoices school cid grade sec col
  let allFee := aggAllPeriodInvoices invoices school cid col
  if 0 < subsetSum then subsetSum
  else if 0 < allFee.length ∧
      (allFee.any (fun i =>
        i.invoiceStatus == "Closed" || i.invoiceStatus == "Paid") = true ∨
        (allFee.map (·.balance)).sum = 0) then (-1)
  else 0

/-- Claim side (C10): the (customer, grade, section) group has at least one
defaulter-filtered invoice of fee type `'Initial Fee'` for the school, and
none of the customer's invoices for the school with that fee type has
status Closed or Paid (balances are not consulted). -/
def qualifiesInitialFee (today : Date) (invoices : List Invoice)
    (school cid grade sec : String) : Prop :=
  (∃ i ∈ invoices, isDefaulterInvoice today i = true ∧ i.school = school ∧
    i.customerId = cid ∧ i.grade = grade ∧ i.sect.getD "-" = sec ∧
    extract_fee_type i.itemName school = some "Initial Fee") ∧
  (∀ i ∈ invoices, i.school = school → i.customerId = cid →
    extract_fee_type i.itemName school = some "Initial Fee" →
    i.invoiceStatus ≠ "Closed" ∧ i.invoiceStatus ≠ "Paid")

/-! ## Infrastructure lemmas -/

/-- Membership in the first-occurrence dedup: `x` survives exactly when it
is the first element of `l` carrying its key and its key was not already
seen. -/
theorem mem_dedupByAux {α β : Type} [DecidableEq β] (key : α → β) :
    ∀ (l : List α) (seen : List β) (x : α),
      x ∈ dedupByAux key seen l ↔
        l.find? (fun y => key y == key x) = some x ∧ key x ∉ seen := by
  intro l
  induction l with
  | nil => intro seen x; simp [dedupByAux]
  | cons a xs ih =>
    intro seen x
    simp only [dedupByAux]
    by_cases hs : key a ∈ seen
    · rw [if_pos hs, ih]
      by_cases hk : key a = key x
      · rw [List.find?_cons_of_pos _ (by simp [hk])]
        constructor
        · rintro ⟨hf, hns⟩; exact absurd (hk ▸ hs) hns
        · rintro ⟨ha, hns⟩; exact absurd (hk ▸ hs) hns
      · rw [List.find?_cons_of_neg _ (by simp [hk])]
    · rw [if_neg hs]
      by_cases hx : x = a
      · subst hx
        simp only [List.mem_cons, true_or, true_iff]
        exact ⟨List.find?_cons_of_pos _ (by simp), hs⟩
      · simp only [List.mem_cons, hx, false_or]
        rw [ih]
        by_cases hk : key a = key x
        · rw [List.find?_cons_of_pos _ (by simp [hk])]
          constructor
          · rintro ⟨hf, hns⟩
            exact absurd (by simp [hk]) hns
          · rintro ⟨ha, _⟩
            exact absurd (Option.some.inj ha) fun h => hx h.symm
        · rw [List.find?_cons_of_neg _ (by simp [hk])]
          constructor
          · rintro ⟨hf, hns⟩
            refine ⟨hf, fun hmem => hns ?_⟩
            exact List.mem_cons_of_mem _ hmem
          · rintro ⟨hf, hns⟩
            refine ⟨hf, fun hmem => ?_⟩
            rcases List.mem_cons.mp hmem with h | h
            · exact hk h.symm
            · exact hns h

/-- `find?` with the "equals `x`" predicate returns `x` exactly when `x`
occurs in the list. -/
theorem find?_beq_self_iff_mem {α : Type} [DecidableEq α]
    (l : List α) (x : α) :
    l.find? (fun y => y == x) = some x ↔ x ∈ l := by
  induction l with
  | nil => simp
  | cons a xs ih =>
    by_cases h : a = x
    · subst h
      rw [List.find?_cons_of_pos _ (by simp)]
      simp
    · rw [List.find?_cons_of_neg _ (by simp [h])]
      simp only [List.mem_cons]
      rw [ih]
      constructor
      · exact Or.inr
      · rintro (hax | hmem)
        · exact absurd hax.symm h
        · exact hmem

/-- With the identity key and nothing seen, dedup preserves membership. -/
theorem mem_dedupByAux_id {α : Type} [DecidableEq α] (l : List α) (x : α) :
    x ∈ dedupByAux id [] l ↔ x ∈ l := by
  rw [mem_dedupByAux]
  simp only [id, List.not_mem_nil, not_false_iff, and_true]
  exact find?_beq_self_iff_mem l x

/-- The deduplicated list has pairwise-distinct keys (and none of the keys
already seen). -/
theorem nodup_map_key_dedupByAux {α β : Type} [DecidableEq β] (key : α → β) :
    ∀ (l : List α) (seen : List β),
      ((dedupByAux key seen l).map key).Nodup ∧
        ∀ x ∈ dedupByAux key seen l, key x ∉ seen := by
  intro l
  induction l with
  | nil => intro seen; simp [dedupByAux]
  | cons a xs ih =>
    intro seen
    simp only [dedupByAux]
    by_cases hs : key a ∈ seen
    · rw [if_pos hs]; exact ih seen
    · rw [if_neg hs]
      obtain ⟨hnd, hmem⟩ := ih (key a :: seen)
      refine ⟨?_, ?_⟩
      · simp only [List.map_cons, List.nodup_cons]
        refine ⟨fun hkin => ?_, hnd⟩
        rw [List.mem_map] at hkin
        obtain ⟨x, hx, hkx⟩ := hkin
        exact (hmem x hx) (by simp [hkx])
      · intro x hx
        rcases List.mem_cons.mp hx with h | h
        · subst h; exact hs
        · intro hin
          exact (hmem x h) (List.mem_cons_of_mem _ hin)

/-! ## Claims C2, C5, C6: the invoice filter and the fee-calendar
resolver -/

/-- C2: an invoice row enters the defaulter-filtered subset iff its status
is `'Overdue'`, or its status is `'PartiallyPaid'` and its due date parses
to a date strictly before today.  In particular a PartiallyPaid row with a
missing/unparseable due date, or a due date of today or later, is excluded
regardless of balance, while an Overdue row is included regardless of its
due date. -/
theorem defaulter_filter_characterization (today : Date) (inv : Invoice) :
    isDefaulterInvoice today inv = true ↔
      (inv.invoiceStatus = "Overdue" ∨
        (inv.invoiceStatus = "PartiallyPaid" ∧
          ∃ d, inv.dueDate = some d ∧ Date.blt d today = true)) := by
  unfold isDefaulterInvoice
  cases hd : inv.dueDate <;> simp [hd]

/-- A guard of the shape `overdue_fee_types and t in overdue_fee_types`
(Python truthiness plus membership) is equivalent to plain membership. -/
theorem contains_guard_iff (s : List String) (t : String) :
    (!s.isEmpty && s.contains t) = true ↔ t ∈ s := by
  cases s with
  | nil => simp
  | cons a l => simp [List.contains]

/-- C5: for the term-based school the due-column list is `'Initial Fee'`
followed by exactly those of `'Term I'`, `'Term II'`, `'Term III'` whose
fixed start date has been reached or whose key is in the overdue-set, in
that order; and for any school the resolver returns a list starting with
`'Initial Fee'` (so never less than `['Initial Fee']`). -/
theorem global_due_columns (today : Date) (s : List String) :
    (get_due_fees_columns today "Excel Global School" s =
      "Initial Fee" ::
        ((if Date.ble ⟨2025, 6, 1⟩ today = true ∨ "Term I" ∈ s then
            ["Term I"] else []) ++
          (if Date.ble ⟨2025, 9, 1⟩ today = true ∨ "Term II" ∈ s then
            ["Term II"] else []) ++
          (if Date.ble ⟨2026, 1, 1⟩ today = true ∨ "Term III" ∈ s then
            ["Term III"] else []))) ∧
      ∀ school : String,
        (get_due_fees_columns today school s).head? = some "Initial Fee" := by
  constructor
  · simp only [get_due_fees_columns, beq_self_eq_true, if_true,
      Bool.or_eq_true, contains_guard_iff]
    split_ifs <;> simp_all
  · intro school
    simp only [get_due_fees_columns]
    split_ifs <;> simp [monthlyWalk]

/-- The monthly walk is a `takeWhile` over the month keys paired with
their first days. -/
theorem monthlyWalk_eq_takeWhile (today : Date) (ms : List String) :
    monthlyWalk today ms =
      (((ms.map (fun m =>
        (strTake3 m ++ "-" ++ toString (monthMapping m).2,
          (⟨(monthMapping m).2, (monthMapping m).1, 1⟩ : Date)))).takeWhile
            (fun p => Date.ble p.2 today)).map Prod.fst) := by
  induction ms with
  | nil => rfl
  | cons m rest ih =>
    simp only [List.map_cons, List.takeWhile_cons]
    by_cases h : Date.ble ⟨(monthMapping m).2, (monthMapping m).1, 1⟩ today
    · simp only [monthlyWalk, h, if_true, List.map_cons, ih]
    · simp only [monthlyWalk, h, if_false, Bool.false_eq_true, List.map_nil]

/-- C6: for the monthly school the due-column list after `'Initial Fee'`
is the longest prefix of the ten academic months (June 2025 … March 2026,
in calendar order) whose first days are all ≤ today; the walk stops at the
first month whose first day is after today, and the overdue-set `s` is
never consulted (the equation holds for every `s`). -/
theorem central_due_columns (today : Date) (s : List String) :
    get_due_fees_columns today "Excel Central School" s =
      "Initial Fee" ::
        ((centralMonthKeys.takeWhile
          (fun p => Date.ble p.2 today)).map Prod.fst) := by
  have hdisp : get_due_fees_columns today "Excel Central School" s =
      ["Initial Fee"] ++ monthlyWalk today excelCentralMonths := by
    simp [get_due_fees_columns]
  rw [hdisp, monthlyWalk_eq_takeWhile]
  have hkeys : (excelCentralMonths.map (fun m =>
      (strTake3 m ++ "-" ++ toString (monthMapping m).2,
        (⟨(monthMapping m).2, (monthMapping m).1, 1⟩ : Date)))) =
      centralMonthKeys := by decide
  rw [hkeys]
  rfl

/-! ## Aggregator membership lemmas -/

/-- Membership in the school's defaulter-filtered invoice subset. -/
theorem mem_schoolDefaulterInvoices (today : Date) (invoices : List Invoice)
    (school : String) (i : Invoice) :
    i ∈ schoolDefaulterInvoices today invoices school ↔
      i ∈ invoices ∧ isDefaulterInvoice today i = true ∧
        i.school = school := by
  simp only [schoolDefaulterInvoices, List.mem_filter, beq_iff_eq,
    and_assoc]

/-- `create_student_summary` in terms of its named pieces. -/
theorem create_student_summary_eq (today : Date) (contacts : List Contact)
    (invoices : List Invoice) (school : String) :
    create_student_summary today contacts invoices school =
      if (schoolDefaulterInvoices today invoices school).length = 0 then []
      else (aggGroupKeys today invoices school).map
        (mkSummaryRow contacts school (aggDueColumns today invoices school)
          (schoolDefaulterInvoices today invoices school)
          (aggAllInvs today invoices school)) := rfl

/-- The rows of a summary are exactly the images of the group keys. -/
theorem mem_create_student_summary (today : Date) (contacts : List Contact)
    (invoices : List Invoice) (school : String) (row : SummaryRow) :
    row ∈ create_student_summary today contacts invoices school ↔
      ∃ k ∈ aggGroupKeys today invoices school,
        row = mkSummaryRow contacts school (aggDueColumns today invoices school)
          (schoolDefaulterInvoices today invoices school)
          (aggAllInvs today invoices school) k := by
  rw [create_student_summary_eq]
  by_cases h : (schoolDefaulterInvoices today invoices school).length = 0
  · rw [if_pos h]
    have hnil : schoolDefaulterInvoices today invoices school = [] :=
      List.length_eq_zero.mp h
    simp [aggGroupKeys, hnil, dedupByAux]
  · rw [if_neg h]
    simp only [List.mem_map]
    constructor
    · rintro ⟨k, hk, heq⟩; exact ⟨k, hk, heq.symm⟩
    · rintro ⟨k, hk, heq⟩; exact ⟨k, hk, heq.symm⟩

/-- Membership in the group-key list: a key appears exactly when some
defaulter-filtered invoice of the school carries it (with a present
section). -/
theorem mem_aggGroupKeys (today : Date) (invoices : List Invoice)
    (school : String) (k : String × String × String) :
    k ∈ aggGroupKeys today invoices school ↔
      ∃ i ∈ invoices, isDefaulterInvoice today i = true ∧
        i.school = school ∧ i.customerId = k.1 ∧ i.grade = k.2.1 ∧
        i.sect = some k.2.2 := by
  unfold aggGroupKeys
  rw [mem_dedupByAux_id]
  simp only [List.mem_filterMap]
  constructor
  · rintro ⟨i, hi, hmap⟩
    rw [Option.map_eq_some'] at hmap
    obtain ⟨s, hsect, hk⟩ := hmap
    obtain ⟨hmem, hd, hsch⟩ :=
      (mem_schoolDefaulterInvoices today invoices school i).mp hi
    subst hk
    exact ⟨i, hmem, hd, hsch, rfl, rfl, hsect⟩
  · rintro ⟨i, hmem, hd, hsch, hcid, hgrade, hsect⟩
    refine ⟨i, (mem_schoolDefaulterInvoices today invoices school i).mpr
      ⟨hmem, hd, hsch⟩, ?_⟩
    rw [hsect]
    simp [Option.map, hcid, hgrade]

/-- A group key's customer id occurs among the defaulter ids. -/
theorem aggGroupKeys_cid_mem (today : Date) (invoices : List Invoice)
    (school : String) (k : String × String × String)
    (hk : k ∈ aggGroupKeys today invoices school) :
    k.1 ∈ (schoolDefaulterInvoices today invoices school).map
      (·.customerId) := by
  obtain ⟨i, hmem, hd, hsch, hcid, hgrade, hsect⟩ :=
    (mem_aggGroupKeys today invoices school k).mp hk
  rw [List.mem_map]
  exact ⟨i, (mem_schoolDefaulterInvoices today invoices school i).mpr
    ⟨hmem, hd, hsch⟩, hcid⟩

/-- The code's per-period slice of one group — filtering the (customer,
grade, section) group of defaulter-filtered rows down to one fee type —
equals the claim-side single filter over the raw invoice table. -/
theorem group_feeCol_eq (today : Date) (invoices : List Invoice)
    (school : String) (k : String × String × String) (col : String) :
    (groupInvoices (schoolDefaulterInvoices today invoices school) k).filter
      (fun i => extract_fee_type i.itemName school == some col) =
    invoices.filter (fun i =>
      isDefaulterInvoice today i && i.school == school &&
        i.customerId == k.1 && i.grade == k.2.1 && i.sect == some k.2.2 &&
        extract_fee_type i.itemName school == some col) := by
  unfold groupInvoices schoolDefaulterInvoices
  simp only [List.filter_filter]
  refine List.filter_congr (fun x _ => ?_)
  cases isDefaulterInvoice today x <;> cases x.school == school <;>
    cases x.customerId == k.1 <;> cases x.grade == k.2.1 <;>
    cases x.sect == some k.2.2 <;>
    cases extract_fee_type x.itemName school == some col <;> rfl

/-- The code's per-period slice of `student_all_invoices` — the raw table
filtered through the defaulter-id list, the school, the customer and the
fee type — equals the claim-side `aggAllPeriodInvoices`, because a group
key's customer id is always among the defaulter ids. -/
theorem studentAll_feeCol_eq (today : Date) (invoices : List Invoice)
    (school : String) (k : String × String × String) (col : String)
    (hcid : k.1 ∈ (schoolDefaulterInvoices today invoices school).map
      (·.customerId)) :
    (studentInvoices (aggAllInvs today invoices school) k.1).filter
      (fun i => extract_fee_type i.itemName school == some col) =
    aggAllPeriodInvoices invoices school k.1 col := by
  unfold studentInvoices aggAllInvs aggAllPeriodInvoices
  simp only [List.filter_filter]
  refine List.filter_congr (fun x _ => ?_)
  cases hc : x.customerId == k.1 with
  | false =>
    cases extract_fee_type x.itemName school == some col <;>
      cases x.school == school <;>
      cases ((schoolDefaulterInvoices today invoices school).map
        (·.customerId)).contains x.customerId <;> rfl
  | true =>
    have hx1 : x.customerId = k.1 := by simpa using hc
    have hcont : ((schoolDefaulterInvoices today invoices school).map
        (·.customerId)).contains x.customerId = true := by
      rw [hx1]
      simpa [List.contains] using hcid
    rw [hcont]
    cases extract_fee_type x.itemName school == some col <;>
      cases x.school == school <;> rfl

/-- The amount of a positive defaulter-subset sum forces the existence of
an invoice for the period, so the period's `allFee` list is non-empty. -/
theorem allFee_ne_nil_of_subsetSum_pos (today : Date)
    (invoices : List Invoice) (school : String)
    (k : String × String × String) (col : String)
    (hpos : 0 < aggDefaulterSubsetSum today invoices school k.1 k.2.1 k.2.2
      col) :
    0 < (aggAllPeriodInvoices invoices school k.1 col).length := by
  unfold aggDefaulterSubsetSum at hpos
  set P := fun i : Invoice =>
    isDefaulterInvoice today i && i.school == school &&
      i.customerId == k.1 && i.grade == k.2.1 && i.sect == some k.2.2 &&
      extract_fee_type i.itemName school == some col with hP
  have hfne : invoices.filter P ≠ [] := by
    intro hnil
    rw [hnil] at hpos
    simp at hpos
  obtain ⟨i, hi⟩ := List.exists_mem_of_ne_nil _ hfne
  rw [List.mem_filter] at hi
  obtain ⟨hmem, hpred⟩ := hi
  rw [hP] at hpred
  simp only [Bool.and_eq_true, beq_iff_eq] at hpred
  apply List.length_pos_of_mem
  show i ∈ aggAllPeriodInvoices invoices school k.1 col
  unfold aggAllPeriodInvoices
  rw [List.mem_filter]
  refine ⟨hmem, ?_⟩
  simp only [Bool.and_eq_true, beq_iff_eq]
  exact ⟨⟨hpred.1.1.1.1.2, hpred.1.1.1.2⟩, hpred.2⟩

/-- The per-column value the loop body stores equals the claim-side
tri-state value. -/
theorem feeValue_eq_aggValueSpec (today : Date) (invoices : List Invoice)
    (school : String) (k : String × String × String) (col : String)
    (hcid : k.1 ∈ (schoolDefaulterInvoices today invoices school).map
      (·.customerId)) :
    feeValue school (groupInvoices (schoolDefaulterInvoices today invoices
      school) k) (studentInvoices (aggAllInvs today invoices school) k.1)
      col =
    aggValueSpec today invoices school k.1 k.2.1 k.2.2 col := by
  unfold feeValue aggValueSpec
  rw [group_feeCol_eq today invoices school k col,
    studentAll_feeCol_eq today invoices school k col hcid]
  set S := aggDefaulterSubsetSum today invoices school k.1 k.2.1 k.2.2 col
    with hS
  set L := aggAllPeriodInvoices invoices school k.1 col with hL
  rw [show (((invoices.filter (fun i =>
      isDefaulterInvoice today i && i.school == school &&
        i.customerId == k.1 && i.grade == k.2.1 && i.sect == some k.2.2 &&
        extract_fee_type i.itemName school == some col)).map
          (·.balance)).sum) = S from rfl]
  by_cases hpos : 0 < S
  · have hlen : 0 < L.length := by
      rw [hL]
      exact allFee_ne_nil_of_subsetSum_pos today invoices school k col
        (hS ▸ hpos)
    rw [if_pos hlen, if_pos hpos, if_pos hpos]
  · by_cases hlen : 0 < L.length
    · rw [if_pos hlen, if_neg hpos, if_neg hpos]
      split_ifs with hb hp hp'
      · rfl
      · refine absurd ⟨hlen, ?_⟩ hp
        rcases Bool.or_eq_true_iff.mp hb with h | h
        · exact Or.inl h
        · exact Or.inr (by simpa using h)
      · refine absurd ?_ hb
        rcases hp'.2 with h | h
        · simp [h]
        · simp [h]
      · rfl
    · rw [if_neg hlen, if_neg hpos,
        if_neg (fun hc => hlen hc.1)]

/-! ## Claims C1, C3, C4, C7: the Defaulter Aggregator -/

/-- C1: for every student group (customer id, grade, section) in a
school's summary and every due FeePeriodKey column, the stored value is
the claim's tri-state: the defaulter-filtered subset's summed Balance for
the period when that sum is strictly positive; else the paid sentinel `-1`
when an invoice for the period exists and either one of them is
Closed/Paid or all the period's balances sum to zero; else `0` (invoice
present but neither condition, or no invoice at all). -/
theorem aggregator_tri_state_value (today : Date) (contacts : List Contact)
    (invoices : List Invoice) (school : String) (row : SummaryRow)
    (hrow : row ∈ create_student_summary today contacts invoices school)
    (col : String) (v : Int) (hcol : (col, v) ∈ row.values) :
    v = aggValueSpec today invoices school row.customerId row.grade
      row.sect col := by
  rw [mem_create_student_summary] at hrow
  obtain ⟨k, hk, rfl⟩ := hrow
  simp only [mkSummaryRow, List.mem_map, Prod.mk.injEq] at hcol
  obtain ⟨c, hc, hceq, hveq⟩ := hcol
  subst hceq
  subst hveq
  exact feeValue_eq_aggValueSpec today invoices school k c
    (aggGroupKeys_cid_mem today invoices school k hk)

/-- Witness for C1 at a concrete input: one Overdue Term-I invoice of
5000 for the term-based school yields a Term-I cell of 5000, matching the
claim-side tri-state value. -/
theorem aggregator_tri_state_value_witness :
    ((⟨"C100", "", "", "5", "A", [("Initial Fee", 0), ("Term I", 5000)],
        5000⟩ : SummaryRow) ∈
      create_student_summary ⟨2025, 6, 15⟩ []
        [⟨"C100", "Excel Global School", "5", some "A",
          some "Term I Fee (June) 2025", "Overdue", 5000,
          some ⟨2025, 6, 10⟩⟩] "Excel Global School") ∧
    (5000 : Int) = aggValueSpec ⟨2025, 6, 15⟩
      [⟨"C100", "Excel Global School", "5", some "A",
        some "Term I Fee (June) 2025", "Overdue", 5000,
        some ⟨2025, 6, 10⟩⟩] "Excel Global School" "C100" "5" "A"
      "Term I" :=
  ⟨by decide,
    aggregator_tri_state_value ⟨2025, 6, 15⟩ []
      [⟨"C100", "Excel Global School", "5", some "A",
        some "Term I Fee (June) 2025", "Overdue", 5000,
        some ⟨2025, 6, 10⟩⟩] "Excel Global School"
      ⟨"C100", "", "", "5", "A", [("Initial Fee", 0), ("Term I", 5000)],
        5000⟩ (by decide) "Term I" 5000 (by decide)⟩

/-- C3: every summary row's Total Outstanding is the sum over its due
columns of `max 0 value`: the paid sentinel `-1` contributes `0`, and
`0`-valued columns contribute nothing. -/
theorem total_outstanding_is_clamped_sum (today : Date)
    (contacts : List Contact) (invoices : List Invoice) (school : String)
    (row : SummaryRow)
    (hrow : row ∈ create_student_summary today contacts invoices school) :
    row.totalOutstanding = (row.values.map (fun p => max 0 p.2)).sum := by
  rw [mem_create_student_summary] at hrow
  obtain ⟨k, hk, rfl⟩ := hrow
  rfl

/-- Witness for C3 at the concrete input of the C1 witness. -/
theorem total_outstanding_is_clamped_sum_witness :
    ((⟨"C100", "", "", "5", "A", [("Initial Fee", 0), ("Term I", 5000)],
        5000⟩ : SummaryRow) ∈
      create_student_summary ⟨2025, 6, 15⟩ []
        [⟨"C100", "Excel Global School", "5", some "A",
          some "Term I Fee (June) 2025", "Overdue", 5000,
          some ⟨2025, 6, 10⟩⟩] "Excel Global School") ∧
    (⟨"C100", "", "", "5", "A", [("Initial Fee", 0), ("Term I", 5000)],
        5000⟩ : SummaryRow).totalOutstanding =
      (((⟨"C100", "", "", "5", "A",
        [("Initial Fee", 0), ("Term I", 5000)], 5000⟩ :
          SummaryRow).values.map (fun p => max 0 p.2)).sum) :=
  ⟨by decide,
    total_outstanding_is_clamped_sum ⟨2025, 6, 15⟩ []
      [⟨"C100", "Excel Global School", "5", some "A",
        some "Term I Fee (June) 2025", "Overdue", 5000,
        some ⟨2025, 6, 10⟩⟩] "Excel Global School"
      ⟨"C100", "", "", "5", "A", [("Initial Fee", 0), ("Term I", 5000)],
        5000⟩ (by decide)⟩

/-- C4 (amended): every produced summary row comes from a (customer id,
grade, section) group with at least one defaulter-filtered invoice for
that school — a student with no qualifying invoice never appears. (The
original claim's stronger clause, that every row has a strictly positive
due column, is refuted by `zero_outstanding_student_in_summary`.) -/
theorem summary_rows_come_from_defaulter_invoices (today : Date)
    (contacts : List Contact) (invoices : List Invoice) (school : String)
    (row : SummaryRow)
    (hrow : row ∈ create_student_summary today contacts invoices school) :
    ∃ i ∈ invoices, isDefaulterInvoice today i = true ∧
      i.school = school ∧ i.customerId = row.customerId ∧
      i.grade = row.grade ∧ i.sect = some row.sect := by
  rw [mem_create_student_summary] at hrow
  obtain ⟨k, hk, rfl⟩ := hrow
  obtain ⟨i, hmem, hrest⟩ := (mem_aggGroupKeys today invoices school k).mp hk
  exact ⟨i, hmem, hrest⟩

/-- Counterexample to C4 as stated: a monthly-school student whose only
defaulter-filtered invoice is for `Mar-2026` while today is
`2025-06-15` — the month walk stops at July, so no due column matches and
the produced row has no strictly positive value, yet the student appears
in the summary. -/
theorem zero_outstanding_student_in_summary :
    ¬ (∀ row ∈ create_student_summary ⟨2025, 6, 15⟩ []
        [⟨"C200", "Excel Central School", "2", some "B",
          some "March Monthly Fee", "Overdue", 100, some ⟨2026, 3, 10⟩⟩]
        "Excel Central School",
        ∃ p ∈ row.values, 0 < p.2) := by decide

/-- Witness for the amended C4 at a concrete input. -/
theorem summary_rows_come_from_defaulter_invoices_witness :
    ((⟨"C200", "", "", "2", "B",
        [("Initial Fee", 0), ("Jun-2025", 0)], 0⟩ : SummaryRow) ∈
      create_student_summary ⟨2025, 6, 15⟩ []
        [⟨"C200", "Excel Central School", "2", some "B",
          some "March Monthly Fee", "Overdue", 100, some ⟨2026, 3, 10⟩⟩]
        "Excel Central School") ∧
    ∃ i ∈ [(⟨"C200", "Excel Central School", "2", some "B",
        some "March Monthly Fee", "Overdue", 100, some ⟨2026, 3, 10⟩⟩ :
          Invoice)],
      isDefaulterInvoice ⟨2025, 6, 15⟩ i = true ∧
        i.school = "Excel Central School" ∧ i.customerId = "C200" ∧
        i.grade = "2" ∧ i.sect = some "B" :=
  ⟨by decide,
    summary_rows_come_from_defaulter_invoices ⟨2025, 6, 15⟩ []
      [⟨"C200", "Excel Central School", "2", some "B",
        some "March Monthly Fee", "Overdue", 100, some ⟨2026, 3, 10⟩⟩]
      "Excel Central School"
      ⟨"C200", "", "", "2", "B", [("Initial Fee", 0), ("Jun-2025", 0)], 0⟩
      (by decide)⟩

/-- C7 (code behaviour at the claim's situation): a defaulter-filtered
invoice group whose Section is null produces **no** summary row at all —
pandas `groupby` drops null-keyed rows before the loop body's
`else 'General'` branch can run, so that branch is dead code. -/
theorem null_section_group_dropped :
    create_student_summary ⟨2025, 6, 15⟩ []
      [⟨"C300", "Excel Global School", "3", none,
        some "Term I Fee (June)", "Overdue", 4000, some ⟨2025, 6, 1⟩⟩]
      "Excel Global School" = [] := by decide

/-! ## Claim C8: the Opening-Balance Reconciler -/

/-- C8: the reconciler outputs exactly the contact rows with a positive
opening balance whose remaining balance — opening balance minus the
summed opening-balance payments of that customer, an empty sum being 0 —
is strictly positive, each tagged `'Opening Balance Not Fully Paid'`. -/
theorem opening_balance_defaulters_characterization
    (contacts : List Contact) (payments : List Payment) :
    (∀ r : OBDefaulter,
      r ∈ identify_opening_balance_defaulters contacts payments ↔
        ∃ c ∈ contacts, ∃ ob : Int, c.openingBalance = some ob ∧
          0 < ob ∧ 0 < ob - openingBalancePaidSum payments c.contactId ∧
          r = mkOBDefaulter payments c) ∧
    ∀ r ∈ identify_opening_balance_defaulters contacts payments,
      r.status = "Opening Balance Not Fully Paid" := by
  have hmain : ∀ r : OBDefaulter,
      r ∈ identify_opening_balance_defaulters contacts payments ↔
        ∃ c ∈ contacts, ∃ ob : Int, c.openingBalance = some ob ∧
          0 < ob ∧ 0 < ob - openingBalancePaidSum payments c.contactId ∧
          r = mkOBDefaulter payments c := by
    intro r
    unfold identify_opening_balance_defaulters
    rw [List.mem_filter]
    simp only [List.mem_map]
    constructor
    · rintro ⟨⟨c, hc, rfl⟩, hrem⟩
      rw [List.mem_filter] at hc
      obtain ⟨hcmem, hposb⟩ := hc
      unfold hasPositiveOpeningBalance at hposb
      cases hob : c.openingBalance with
      | none => rw [hob] at hposb; simp at hposb
      | some ob =>
        rw [hob] at hposb
        simp only [decide_eq_true_eq] at hposb
        refine ⟨c, hcmem, ob, hob, hposb, ?_, rfl⟩
        simpa [mkOBDefaulter, hob] using hrem
    · rintro ⟨c, hcmem, ob, hob, hposb, hrem, rfl⟩
      refine ⟨⟨c, ?_, rfl⟩, ?_⟩
      · rw [List.mem_filter]
        refine ⟨hcmem, ?_⟩
        unfold hasPositiveOpeningBalance
        rw [hob]
        simpa using hposb
      · simpa [mkOBDefaulter, hob] using hrem
  refine ⟨hmain, fun r hr => ?_⟩
  obtain ⟨c, hcmem, ob, hob, hposb, hrem, rfl⟩ := (hmain r).mp hr
  rfl

/-! ## Initial-fee defaulter lemmas -/

/-- `initialFeeRecordsForSchool` in terms of its named pieces. -/
theorem initialFeeRecordsForSchool_eq (today : Date)
    (contacts : List Contact) (invoices : List Invoice) (school : String) :
    initialFeeRecordsForSchool today contacts invoices school =
      if (schoolDefaulterInvoices today invoices school).length = 0 then []
      else if (ifdInvoices today invoices school).length = 0 then []
      else (ifdKeys today invoices school).filterMap (fun k =>
        if 0 < (ifdStudentIFInvs today invoices school k.1).length &&
            !((ifdStudentIFInvs today invoices school k.1).any (fun i =>
              i.invoiceStatus == "Closed" ||
                i.invoiceStatus == "Paid")) then
          some (mkInitialFeeRecord contacts school k)
        else none) := rfl

/-- Every per-school initial-fee record carries the fixed status, its
school, and zeroed opening-balance fields. -/
theorem initialFeeRecordsForSchool_shape (today : Date)
    (contacts : List Contact) (invoices : List Invoice) (school : String)
    (r : DefaulterRecord)
    (hr : r ∈ initialFeeRecordsForSchool today contacts invoices school) :
    r.status = "Initial Fee Not Paid" ∧ r.school = school ∧
      r.openingBalance = 0 ∧ r.totalPaid = 0 ∧ r.remaining = 0 := by
  rw [initialFeeRecordsForSchool_eq] at hr
  split at hr
  · simp at hr
  · split at hr
    · simp at hr
    · simp only [List.mem_filterMap] at hr
      obtain ⟨k, hk, hfk⟩ := hr
      split at hfk
      · injection hfk with h
        subst h
        exact ⟨rfl, rfl, rfl, rfl, rfl⟩
      · simp at hfk

/-- Every combined-pipeline initial-fee record carries the fixed status,
zeroed opening-balance fields, and one of the two school names. -/
theorem initialFeeRecords_shape (today : Date) (contacts : List Contact)
    (invoices : List Invoice) (r : DefaulterRecord)
    (hr : r ∈ initialFeeRecords today contacts invoices) :
    r.status = "Initial Fee Not Paid" ∧ r.openingBalance = 0 ∧
      r.totalPaid = 0 ∧ r.remaining = 0 ∧
      (r.school = "Excel Global School" ∨
        r.school = "Excel Central School") := by
  unfold initialFeeRecords at hr
  rcases List.mem_append.mp hr with h | h
  · obtain ⟨hs, hsch, h1, h2, h3⟩ :=
      initialFeeRecordsForSchool_shape today contacts invoices
        "Excel Global School" r h
    exact ⟨hs, h1, h2, h3, Or.inl hsch⟩
  · obtain ⟨hs, hsch, h1, h2, h3⟩ :=
      initialFeeRecordsForSchool_shape today contacts invoices
        "Excel Central School" r h
    exact ⟨hs, h1, h2, h3, Or.inr hsch⟩

/-- Every reconciler output row carries the opening-balance status tag
(helper shared by several claims). -/
theorem ob_defaulters_status (contacts : List Contact)
    (payments : List Payment) (r : OBDefaulter)
    (hr : r ∈ identify_opening_balance_defaulters contacts payments) :
    r.status = "Opening Balance Not Fully Paid" := by
  unfold identify_opening_balance_defaulters at hr
  rw [List.mem_filter] at hr
  obtain ⟨hm, _⟩ := hr
  rw [List.mem_map] at hm
  obtain ⟨c, _, rfl⟩ := hm
  rfl

/-- Membership in the combined report: a record survives the
`drop_duplicates(keep='first')` exactly when it is the first record of
the concatenated list carrying its customer id. -/
theorem mem_extract_initial_fee_defaulters (today : Date)
    (contacts : List Contact) (invoices : List Invoice)
    (payments : List Payment) (r : DefaulterRecord) :
    r ∈ extract_initial_fee_defaulters today contacts invoices payments ↔
      (initialFeeRecords today contacts invoices ++
        (identify_opening_balance_defaulters contacts payments).map
          obToRecord).find? (fun y => y.customerId == r.customerId) =
        some r := by
  unfold extract_initial_fee_defaulters
  rw [mem_dedupByAux]
  simp

/-- Membership in the initial-fee defaulter-filtered rows of a school. -/
theorem ifdInvoices_mem (today : Date) (invoices : List Invoice)
    (school : String) (i : Invoice) :
    i ∈ ifdInvoices today invoices school ↔
      i ∈ invoices ∧ isDefaulterInvoice today i = true ∧
        i.school = school ∧
        extract_fee_type i.itemName school = some "Initial Fee" := by
  unfold ifdInvoices
  rw [List.mem_filter, mem_schoolDefaulterInvoices]
  simp [and_assoc]

/-- Membership in a customer's initial-fee invoice list (for a customer
that occurs among the defaulter ids, the defaulter-id filter is
vacuous). -/
theorem ifdStudentIFInvs_mem (today : Date) (invoices : List Invoice)
    (school cid : String) (j : Invoice)
    (hcid : cid ∈ (ifdInvoices today invoices school).map (·.customerId)) :
    j ∈ ifdStudentIFInvs today invoices school cid ↔
      j ∈ invoices ∧ j.school = school ∧ j.customerId = cid ∧
        extract_fee_type j.itemName school = some "Initial Fee" := by
  unfold ifdStudentIFInvs ifdAllInvs
  rw [List.mem_filter, List.mem_filter, List.mem_filter]
  constructor
  · rintro ⟨⟨⟨hj, hcb⟩, hcj⟩, hfee⟩
    simp only [Bool.and_eq_true, beq_iff_eq] at hcb
    exact ⟨hj, hcb.2, by simpa using hcj, by simpa using hfee⟩
  · rintro ⟨hj, hsch, hcid', hfee⟩
    refine ⟨⟨⟨hj, ?_⟩, by simpa using hcid'⟩, by simpa using hfee⟩
    simp only [Bool.and_eq_true, beq_iff_eq]
    refine ⟨?_, hsch⟩
    rw [hcid']
    simpa [List.contains] using hcid

/-- The per-school initial-fee records are exactly the (customer, grade,
section) groups that satisfy the claim-side qualification. -/
theorem mem_initialFeeRecordsForSchool_iff (today : Date)
    (contacts : List Contact) (invoices : List Invoice)
    (school cid grade sec : String) :
    (∃ r ∈ initialFeeRecordsForSchool today contacts invoices school,
      r.customerId = cid ∧ r.grade = grade ∧ r.sect = sec) ↔
    qualifiesInitialFee today invoices school cid grade sec := by
  rw [initialFeeRecordsForSchool_eq]
  constructor
  · rintro ⟨r, hr, hcid, hgrade, hsec⟩
    split at hr
    · simp at hr
    · split at hr
      · simp at hr
      · simp only [List.mem_filterMap] at hr
        obtain ⟨k, hk, hfk⟩ := hr
        split at hfk
        case isFalse => simp at hfk
        case isTrue hcond =>
        injection hfk with h
        subst h
        replace hcid : k.1 = cid := hcid
        replace hgrade : k.2.1 = grade := hgrade
        replace hsec : k.2.2 = sec := hsec
        unfold ifdKeys at hk
        rw [mem_dedupByAux_id, List.mem_map] at hk
        obtain ⟨i, hi, hkey⟩ := hk
        obtain ⟨hk1, hk2, hk3⟩ : i.customerId = k.1 ∧ i.grade = k.2.1 ∧
            i.sect.getD "-" = k.2.2 := by
          rw [← hkey]
          exact ⟨rfl, rfl, rfl⟩
        obtain ⟨himem, hd, hsch, hfee⟩ :=
          (ifdInvoices_mem today invoices school i).mp hi
        have hcidmem : k.1 ∈ (ifdInvoices today invoices school).map
            (·.customerId) := by
          rw [List.mem_map]
          exact ⟨i, hi, hk1⟩
        constructor
        · exact ⟨i, himem, hd, hsch, hk1.trans hcid, hk2.trans hgrade,
            hk3.trans hsec, hfee⟩
        · intro j hj hjsch hjcid hjfee
          have hjmem : j ∈ ifdStudentIFInvs today invoices school k.1 :=
            (ifdStudentIFInvs_mem today invoices school k.1 j
              hcidmem).mpr ⟨hj, hjsch, hjcid.trans hcid.symm, hjfee⟩
          simp only [Bool.and_eq_true, Bool.not_eq_true'] at hcond
          have hany := hcond.2
          rw [List.any_eq_false] at hany
          have hnone := hany j hjmem
          constructor <;> intro heq <;> exact hnone (by simp [heq])
  · rintro ⟨⟨i, himem, hd, hsch, hicid, higrade, hisec, hifee⟩, hall⟩
    have hiifd : i ∈ ifdInvoices today invoices school :=
      (ifdInvoices_mem today invoices school i).mpr
        ⟨himem, hd, hsch, hifee⟩
    have h1 : ¬ (schoolDefaulterInvoices today invoices school).length
        = 0 := by
      intro h0
      have hnil := List.length_eq_zero.mp h0
      have hmem : i ∈ schoolDefaulterInvoices today invoices school :=
        (mem_schoolDefaulterInvoices today invoices school i).mpr
          ⟨himem, hd, hsch⟩
      rw [hnil] at hmem
      simp at hmem
    have h2 : ¬ (ifdInvoices today invoices school).length = 0 := by
      intro h0
      have hnil := List.length_eq_zero.mp h0
      rw [hnil] at hiifd
      simp at hiifd
    rw [if_neg h1, if_neg h2]
    have hkmem : ((cid, grade, sec) : String × String × String) ∈
        ifdKeys today invoices school := by
      unfold ifdKeys
      rw [mem_dedupByAux_id, List.mem_map]
      exact ⟨i, hiifd, by rw [hicid, higrade, hisec]⟩
    have hcidmem : cid ∈ (ifdInvoices today invoices school).map
        (·.customerId) := by
      rw [List.mem_map]
      exact ⟨i, hiifd, hicid⟩
    have hlenp : 0 < (ifdStudentIFInvs today invoices school cid).length :=
      List.length_pos_of_mem
        ((ifdStudentIFInvs_mem today invoices school cid i hcidmem).mpr
          ⟨himem, hsch, hicid, hifee⟩)
    have hanyf : (ifdStudentIFInvs today invoices school cid).any
        (fun i => i.invoiceStatus == "Closed" ||
          i.invoiceStatus == "Paid") = false := by
      rw [List.any_eq_false]
      intro j hj
      obtain ⟨hjm, hjsch, hjcid, hjfee⟩ :=
        (ifdStudentIFInvs_mem today invoices school cid j hcidmem).mp hj
      obtain ⟨hc, hp⟩ := hall j hjm hjsch hjcid hjfee
      simp [hc, hp]
    refine ⟨mkInitialFeeRecord contacts school (cid, grade, sec), ?_,
      rfl, rfl, rfl⟩
    simp only [List.mem_filterMap]
    refine ⟨(cid, grade, sec), hkmem, ?_⟩
    rw [if_pos ?_]
    show (decide (0 < (ifdStudentIFInvs today invoices school
        ((cid, grade, sec) : String × String × String).1).length) &&
      !((ifdStudentIFInvs today invoices school
        ((cid, grade, sec) : String × String × String).1).any (fun i =>
          i.invoiceStatus == "Closed" || i.invoiceStatus == "Paid"))) =
      true
    show (decide (0 < (ifdStudentIFInvs today invoices school cid).length)
      && !((ifdStudentIFInvs today invoices school cid).any (fun i =>
        i.invoiceStatus == "Closed" || i.invoiceStatus == "Paid"))) = true
    rw [hanyf]
    simp [hlenp]

/-! ## Claims C9, C10: the combined defaulter report -/

/-- C9: in the combined report every customer id appears at most once;
a record is kept exactly when it is the first record of the concatenated
(initial-fee then opening-balance) list with its customer id; and for a
student flagged by both rules the kept row is the first initial-fee
record — with status `'Initial Fee Not Paid'` — while the opening-balance
record is dropped. -/
theorem combined_report_dedup (today : Date) (contacts : List Contact)
    (invoices : List Invoice) (payments : List Payment) :
    (((extract_initial_fee_defaulters today contacts invoices
        payments).map (·.customerId)).Nodup) ∧
    (∀ r : DefaulterRecord,
      r ∈ extract_initial_fee_defaulters today contacts invoices
          payments ↔
        (initialFeeRecords today contacts invoices ++
          (identify_opening_balance_defaulters contacts payments).map
            obToRecord).find? (fun y => y.customerId == r.customerId) =
          some r) ∧
    ∀ cid rf,
      (initialFeeRecords today contacts invoices).find?
        (fun y => y.customerId == cid) = some rf →
      (∃ ro ∈ (identify_opening_balance_defaulters contacts
        payments).map obToRecord, ro.customerId = cid) →
      rf ∈ extract_initial_fee_defaulters today contacts invoices
        payments ∧
      (∀ r ∈ extract_initial_fee_defaulters today contacts invoices
        payments, r.customerId = cid → r = rf) ∧
      rf.status = "Initial Fee Not Paid" := by
  refine ⟨?_, mem_extract_initial_fee_defaulters today contacts invoices
    payments, ?_⟩
  · exact (nodup_map_key_dedupByAux (fun r => r.customerId)
      (initialFeeRecords today contacts invoices ++
        (identify_opening_balance_defaulters contacts payments).map
          obToRecord) []).1
  · intro cid rf hfind hob
    have hrfcid : rf.customerId = cid := by
      have := List.find?_some hfind
      simpa using this
    have happ : (initialFeeRecords today contacts invoices ++
        (identify_opening_balance_defaulters contacts payments).map
          obToRecord).find? (fun y => y.customerId == cid) = some rf := by
      rw [List.find?_append, hfind]
      rfl
    have hrfmem : rf ∈ extract_initial_fee_defaulters today contacts
        invoices payments := by
      rw [mem_extract_initial_fee_defaulters, hrfcid]
      exact happ
    refine ⟨hrfmem, ?_, ?_⟩
    · intro r hr hrcid
      rw [mem_extract_initial_fee_defaulters, hrcid] at hr
      rw [happ] at hr
      exact (Option.some.inj hr).symm
    · exact (initialFeeRecords_shape today contacts invoices rf
        (List.mem_of_find?_eq_some hfind)).1

/-- Witness for C9 at a concrete both-flagged student: one overdue
Initial-Fee invoice and an unpaid opening balance for the same customer;
the combined report keeps the initial-fee record. -/
theorem combined_report_dedup_witness :
    ((initialFeeRecords ⟨2025, 6, 15⟩
        [⟨"C1", some "Asha", some "Rao", some "E1", "Excel Global School",
          "1", some "A", some 100⟩]
        [⟨"C1", "Excel Global School", "1", some "A",
          some "Initial Academic Fee", "Overdue", 500,
          some ⟨2025, 6, 1⟩⟩]).find?
      (fun y => y.customerId == "C1") =
        some ⟨"C1", some "Asha Rao", "Excel Global School", "1", "A",
          "Initial Fee Not Paid", 0, 0, 0⟩) ∧
    (⟨"C1", some "Asha Rao", "Excel Global School", "1", "A",
        "Initial Fee Not Paid", 0, 0, 0⟩ : DefaulterRecord) ∈
      extract_initial_fee_defaulters ⟨2025, 6, 15⟩
        [⟨"C1", some "Asha", some "Rao", some "E1", "Excel Global School",
          "1", some "A", some 100⟩]
        [⟨"C1", "Excel Global School", "1", some "A",
          some "Initial Academic Fee", "Overdue", 500,
          some ⟨2025, 6, 1⟩⟩] [] ∧
    (⟨"C1", some "Asha Rao", "Excel Global School", "1", "A",
        "Initial Fee Not Paid", 0, 0, 0⟩ :
          DefaulterRecord).status = "Initial Fee Not Paid" :=
  ⟨by decide,
    ((combined_report_dedup ⟨2025, 6, 15⟩
      [⟨"C1", some "Asha", some "Rao", some "E1", "Excel Global School",
        "1", some "A", some 100⟩]
      [⟨"C1", "Excel Global School", "1", some "A",
        some "Initial Academic Fee", "Overdue", 500,
        some ⟨2025, 6, 1⟩⟩] []).2.2 "C1"
      ⟨"C1", some "Asha Rao", "Excel Global School", "1", "A",
        "Initial Fee Not Paid", 0, 0, 0⟩ (by decide) (by decide)).1,
    ((combined_report_dedup ⟨2025, 6, 15⟩
      [⟨"C1", some "Asha", some "Rao", some "E1", "Excel Global School",
        "1", some "A", some 100⟩]
      [⟨"C1", "Excel Global School", "1", some "A",
        some "Initial Academic Fee", "Overdue", 500,
        some ⟨2025, 6, 1⟩⟩] []).2.2 "C1"
      ⟨"C1", some "Asha Rao", "Excel Global School", "1", "A",
        "Initial Fee Not Paid", 0, 0, 0⟩ (by decide) (by decide)).2.2⟩

/-- C10: a row with status `'Initial Fee Not Paid'` appears (per school,
per group) exactly when the group has a defaulter-filtered Initial-Fee
invoice and none of the customer's Initial-Fee invoices for the school is
Closed/Paid — balances are never consulted — at the customer level the
same holds in the combined report, and every such row carries zero
Opening Balance, Total Paid and Remaining Opening Balance. -/
theorem initial_fee_not_paid_rows (today : Date) (contacts : List Contact)
    (invoices : List Invoice) (payments : List Payment) :
    (∀ school cid grade sec,
      (∃ r ∈ initialFeeRecordsForSchool today contacts invoices school,
        r.customerId = cid ∧ r.grade = grade ∧ r.sect = sec) ↔
      qualifiesInitialFee today invoices school cid grade sec) ∧
    (∀ cid,
      (∃ r ∈ extract_initial_fee_defaulters today contacts invoices
        payments, r.customerId = cid ∧ r.status = "Initial Fee Not Paid")
        ↔
      (∃ school ∈ (["Excel Global School", "Excel Central School"] :
        List String), ∃ grade sec,
          qualifiesInitialFee today invoices school cid grade sec)) ∧
    (∀ r ∈ extract_initial_fee_defaulters today contacts invoices
      payments, r.status = "Initial Fee Not Paid" →
        r.openingBalance = 0 ∧ r.totalPaid = 0 ∧ r.remaining = 0) := by
  have hnotob : ∀ r : DefaulterRecord,
      r ∈ (identify_opening_balance_defaulters contacts payments).map
        obToRecord → r.status = "Opening Balance Not Fully Paid" := by
    intro r hr
    rw [List.mem_map] at hr
    obtain ⟨ro, hro, rfl⟩ := hr
    exact ob_defaulters_status contacts payments ro hro
  have hfee_of_mem : ∀ r : DefaulterRecord,
      r ∈ extract_initial_fee_defaulters today contacts invoices
        payments → r.status = "Initial Fee Not Paid" →
      r ∈ initialFeeRecords today contacts invoices := by
    intro r hr hst
    rw [mem_extract_initial_fee_defaulters] at hr
    have hmem := List.mem_of_find?_eq_some hr
    rcases List.mem_append.mp hmem with h | h
    · exact h
    · have := hnotob r h
      rw [hst] at this
      exact absurd this (by decide)
  refine ⟨fun school cid grade sec =>
    mem_initialFeeRecordsForSchool_iff today contacts invoices school cid
      grade sec, ?_, ?_⟩
  · intro cid
    constructor
    · rintro ⟨r, hr, hrcid, hrst⟩
      have hrfee := hfee_of_mem r hr hrst
      obtain ⟨hst, hob, htp, hrem, hsch⟩ :=
        initialFeeRecords_shape today contacts invoices r hrfee
      have hqual : qualifiesInitialFee today invoices r.school cid
          r.grade r.sect := by
        rcases List.mem_append.mp hrfee with h | h
        · have hs : r.school = "Excel Global School" :=
            (initialFeeRecordsForSchool_shape today contacts invoices
              "Excel Global School" r h).2.1
          rw [hs]
          exact (mem_initialFeeRecordsForSchool_iff today contacts
            invoices "Excel Global School" cid r.grade r.sect).mp
            ⟨r, h, hrcid, rfl, rfl⟩
        · have hs : r.school = "Excel Central School" :=
            (initialFeeRecordsForSchool_shape today contacts invoices
              "Excel Central School" r h).2.1
          rw [hs]
          exact (mem_initialFeeRecordsForSchool_iff today contacts
            invoices "Excel Central School" cid r.grade r.sect).mp
            ⟨r, h, hrcid, rfl, rfl⟩
      exact ⟨r.school, by simpa using hsch, r.grade, r.sect, hqual⟩
    · rintro ⟨school, hschool, grade, sec, hqual⟩
      obtain ⟨r', hr', hr'cid, hr'grade, hr'sec⟩ :=
        (mem_initialFeeRecordsForSchool_iff today contacts invoices
          school cid grade sec).mpr hqual
      have hr'fee : r' ∈ initialFeeRecords today contacts invoices := by
        unfold initialFeeRecords
        rw [List.mem_append]
        rcases List.mem_cons.mp hschool with h | h
        · left; rw [← h]; exact hr'
        · right
          rcases List.mem_cons.mp h with h' | h'
          · rw [← h']; exact hr'
          · simp at h'
      have hsome : ((initialFeeRecords today contacts invoices).find?
          (fun y => y.customerId == cid)).isSome := by
        rw [List.find?_isSome]
        exact ⟨r', hr'fee, by simp [hr'cid]⟩
      obtain ⟨rf, hrf⟩ := Option.isSome_iff_exists.mp hsome
      have hrfcid : rf.customerId = cid := by
        have := List.find?_some hrf
        simpa using this
      have hrffee : rf ∈ initialFeeRecords today contacts invoices :=
        List.mem_of_find?_eq_some hrf
      have hrfout : rf ∈ extract_initial_fee_defaulters today contacts
          invoices payments := by
        rw [mem_extract_initial_fee_defaulters, hrfcid,
          List.find?_append, hrf]
        rfl
      exact ⟨rf, hrfout, hrfcid,
        (initialFeeRecords_shape today contacts invoices rf hrffee).1⟩
  · intro r hr hst
    have hrfee := hfee_of_mem r hr hst
    obtain ⟨_, hob, htp, hrem, _⟩ :=
      initialFeeRecords_shape today contacts invoices r hrfee
    exact ⟨hob, htp, hrem⟩

/-- Witness for C10 at a concrete input: the both-flagged student of the
C9 witness qualifies for the Global school, and the combined report
contains an `'Initial Fee Not Paid'` row for them with zeroed
opening-balance fields. -/
theorem initial_fee_not_paid_rows_witness :
    ((⟨"C1", some "Asha Rao", "Excel Global School", "1", "A",
        "Initial Fee Not Paid", 0, 0, 0⟩ : DefaulterRecord) ∈
      extract_initial_fee_defaulters ⟨2025, 6, 15⟩
        [⟨"C1", some "Asha", some "Rao", some "E1", "Excel Global School",
          "1", some "A", some 100⟩]
        [⟨"C1", "Excel Global School", "1", some "A",
          some "Initial Academic Fee", "Overdue", 500,
          some ⟨2025, 6, 1⟩⟩] []) ∧
    (⟨"C1", some "Asha Rao", "Excel Global School", "1", "A",
        "Initial Fee Not Paid", 0, 0, 0⟩ :
      DefaulterRecord).openingBalance = 0 ∧
    (⟨"C1", some "Asha Rao", "Excel Global School", "1", "A",
        "Initial Fee Not Paid", 0, 0, 0⟩ :
      DefaulterRecord).totalPaid = 0 ∧
    (⟨"C1", some "Asha Rao", "Excel Global School", "1", "A",
        "Initial Fee Not Paid", 0, 0, 0⟩ :
      DefaulterRecord).remaining = 0 :=
  ⟨by decide,
    ((initial_fee_not_paid_rows ⟨2025, 6, 15⟩
      [⟨"C1", some "Asha", some "Rao", some "E1", "Excel Global School",
        "1", some "A", some 100⟩]
      [⟨"C1", "Excel Global School", "1", some "A",
        some "Initial Academic Fee", "Overdue", 500,
        some ⟨2025, 6, 1⟩⟩] []).2.2
      ⟨"C1", some "Asha Rao", "Excel Global School", "1", "A",
        "Initial Fee Not Paid", 0, 0, 0⟩ (by decide) (by decide)).1,
    ((initial_fee_not_paid_rows ⟨2025, 6, 15⟩
      [⟨"C1", some "Asha", some "Rao", some "E1", "Excel Global School",
        "1", some "A", some 100⟩]
      [⟨"C1", "Excel Global School", "1", some "A",
        some "Initial Academic Fee", "Overdue", 500,
        some ⟨2025, 6, 1⟩⟩] []).2.2
      ⟨"C1", some "Asha Rao", "Excel Global School", "1", "A",
        "Initial Fee Not Paid", 0, 0, 0⟩ (by decide) (by decide)).2.1,
    ((initial_fee_not_paid_rows ⟨2025, 6, 15⟩
      [⟨"C1", some "Asha", some "Rao", some "E1", "Excel Global School",
        "1", some "A", some 100⟩]
      [⟨"C1", "Excel Global School", "1", some "A",
        some "Initial Academic Fee", "Overdue", 500,
        some ⟨2025, 6, 1⟩⟩] []).2.2
      ⟨"C1", some "Asha Rao", "Excel Global School", "1", "A",
        "Initial Fee Not Paid", 0, 0, 0⟩ (by decide) (by decide)).2.2⟩

/-- Witness for C8 at a concrete input: opening balance 10000 with
opening-balance payments summing to 4000 leaves 6000 outstanding, so the
student is reported with the status tag. -/
theorem opening_balance_defaulters_characterization_witness :
    ((⟨"C2", some "Ben K", "Excel Central School", "2", "-", 10000, 4000,
        6000, "Opening Balance Not Fully Paid"⟩ : OBDefaulter) ∈
      identify_opening_balance_defaulters
        [⟨"C2", some "Ben", some "K", none, "Excel Central School", "2",
          none, some 10000⟩]
        [⟨"C2", "Customer opening balance", some 4000, "Ben K"⟩]) ∧
    (⟨"C2", some "Ben K", "Excel Central School", "2", "-", 10000, 4000,
        6000, "Opening Balance Not Fully Paid"⟩ : OBDefaulter).status =
      "Opening Balance Not Fully Paid" :=
  ⟨by decide,
    (opening_balance_defaulters_characterization
      [⟨"C2", some "Ben", some "K", none, "Excel Central School", "2",
        none, some 10000⟩]
      [⟨"C2", "Customer opening balance", some 4000, "Ben K"⟩]).2
      ⟨"C2", some "Ben K", "Excel Central School", "2", "-", 10000, 4000,
        6000, "Opening Balance Not Fully Paid"⟩ (by decide)⟩

end UnpaidStudentExtractor
